import Mathlib

/-!
Shallow embedding of the MoeMoe image pipeline:
`src/services/imageApi.ts` (provider adapters, fetch orchestrator) and
`src/components/ImageBackground/ImageBackground.tsx` (refresh pipeline).

Network I/O is modelled by passing each provider's HTTP response (and the
environment: CORS proxy setting, `Date.now()`, `Math.random()`) explicitly.
Fallible code returns `Except String _`, the error being the thrown
`Error`'s message string.
-/

namespace MoeMoe

/-- `ImageSource` from `src/types/image.ts`: the closed set of provider tags
plus the meta-values `random` and `fallback`. -/
inductive ImageSource where
  | nekos_best | waifu_pics | nekosia | waifu_im
  | nekos_moe | danbooru | pic_re | nekosapi
  | random | fallback
deriving DecidableEq, Repr

/-- `ALL_IMAGE_SOURCES` from `src/types/image.ts`: all selectable sources,
excluding `random` and `fallback`. -/
def ALL_IMAGE_SOURCES : List ImageSource :=
  [.nekos_best, .waifu_pics, .nekosia, .waifu_im,
   .nekos_moe, .danbooru, .pic_re, .nekosapi]

/-- The runtime shape of the records built by the adapters in
`src/services/imageApi.ts` (the object literals carry `proxiedUrl` in
addition to the fields of the `AnimeImage` interface). -/
structure AnimeImage where
  url : String
  proxiedUrl : Option String := none
  animeName : Option String := none
  artistName : Option String := none
  artistHref : Option String := none
  sourceUrl : Option String := none
deriving DecidableEq, Repr

/-- `ImageApiConfig` from `src/services/imageApi.ts`. -/
structure ImageApiConfig where
  source : ImageSource
  allowNSFW : Option Bool := none
  fallbackUrl : Option String := none
deriving DecidableEq, Repr

/-! ## String helpers: `Array.join('\n')`, truncation, `encodeURIComponent` -/

/-- `lines.join('\n')` as used by the error builders. -/
def joinLines : List String → String
  | [] => ""
  | [l] => l
  | l :: ls => l ++ "\n" ++ joinLines ls

/-- `MAX_ERROR_BODY_LENGTH` from `src/services/imageApi.ts`. -/
def MAX_ERROR_BODY_LENGTH : Nat := 1000

/-- Truncation used in both error builders:
`text.length > 1000 ? text.slice(0, 1000) + '…' : text`. -/
def truncateBody (t : String) : String :=
  if t.length > MAX_ERROR_BODY_LENGTH then (t.take MAX_ERROR_BODY_LENGTH) ++ "…" else t

/-- Hex digit of `n < 16`, uppercase as produced by `encodeURIComponent`. -/
def hexDigitChar (n : Nat) : Char :=
  if n < 10 then Char.ofNat (48 + n) else Char.ofNat (55 + n)

/-- One percent-encoded byte, e.g. `37 ↦ "%25"`. -/
def byteToPercent (b : Nat) : String :=
  "%" ++ (hexDigitChar (b / 16)).toString ++ (hexDigitChar (b % 16)).toString

/-- Unreserved characters of JavaScript `encodeURIComponent`. -/
def isUnreservedChar (c : Char) : Bool :=
  c.isAlpha || c.isDigit || "-_.!~*'()".data.contains c

/-- UTF-8 bytes of a code point. -/
def utf8Bytes (c : Char) : List Nat :=
  let n := c.toNat
  if n < 0x80 then [n]
  else if n < 0x800 then [0xC0 + n / 64, 0x80 + n % 64]
  else if n < 0x10000 then [0xE0 + n / 4096, 0x80 + (n / 64) % 64, 0x80 + n % 64]
  else [0xF0 + n / 262144, 0x80 + (n / 4096) % 64, 0x80 + (n / 64) % 64, 0x80 + n % 64]

/-- JavaScript `encodeURIComponent`. -/
def encodeURIComponent (s : String) : String :=
  s.data.foldl
    (fun acc c =>
      acc ++ (if isUnreservedChar c then c.toString
              else String.join ((utf8Bytes c).map byteToPercent)))
    ""

/-! ## CORS proxy helpers (`getCorsProxyUrl` / `getProxiedImageUrl`) -/

/-- `getProxiedImageUrl` from `src/services/imageApi.ts`: the environment's
`VITE_FIX_CORS_API_URL` is the `proxy` argument; `if (proxyUrl && url)`
is JavaScript truthiness on both strings. -/
def getProxiedImageUrl (proxy : Option String) (url : String) : Option String :=
  match proxy with
  | some p => if p ≠ "" && url ≠ "" then some (p ++ encodeURIComponent url) else none
  | none => none

/-! ## Error builders (`buildDataError` / `buildResponseError`) -/

/-- `buildDataError` from `src/services/imageApi.ts`; `data?` is
`safeJsonStringify(data)` of the payload passed (none when no data was
passed), and the `if (json)` truthiness check is the `≠ ""` test. -/
def buildDataError (sourceName requestUrl detail : String)
    (data? : Option String) : String :=
  let snippetLines : List String :=
    match data? with
    | some json => if json ≠ "" then ["responseDataSnippet:", truncateBody json] else []
    | none => []
  joinLines ([sourceName ++ " API error", "requestUrl: " ++ requestUrl, detail]
    ++ snippetLines)

/-- `buildResponseError` from `src/services/imageApi.ts`; `bodyText` is the
result of `response.text()` (`none` when reading the body threw). -/
def buildResponseError (sourceName requestUrl : String)
    (status : Nat) (statusText : String) (bodyText : Option String) : String :=
  let bodySnippet : Option String :=
    match bodyText with
    | some t => if t ≠ "" then some (truncateBody t) else none
    | none => none
  let snippetLines : List String :=
    match bodySnippet with
    | some b => ["responseBodySnippet:", b]
    | none => []
  joinLines ([sourceName ++ " API error", "requestUrl: " ++ requestUrl,
    "status: " ++ toString status ++ " " ++ statusText] ++ snippetLines)

/-! ## HTTP response model -/

/-- One provider HTTP response: `ok`/`status`/`statusText` as on the
`Response` object, `bodyText` the result of `response.text()` (`none` if
reading threw), `json` the result of `response.json()` (`none` if parsing
threw) and `raw` the string `JSON.stringify` produces for the parsed
payload (used for the diagnostic data snippet). -/
structure HttpResp (α : Type) where
  ok : Bool
  status : Nat
  statusText : String
  bodyText : Option String
  json : Option α
  raw : String

/-! ## Provider payload shapes (the fields the adapters access) -/

/-- One entry of `NekosBestResponse.results`; `url` is optional because
the adapter reads `result.url` without any check, so a first item lacking
the `url` field is accepted (JavaScript `undefined`; in the built record
it is modelled as the empty string — both are falsy and indistinguishable
by every truthiness check downstream). -/
structure NekosBestItem where
  url : Option String := none
  anime_name : Option String := none
  artist_name : Option String := none
  artist_href : Option String := none
  source_url : Option String := none
deriving DecidableEq, Repr

/-- `NekosBestResponse`; `results` is optional because the code guards
`!data.results`. -/
structure NekosBestResponse where
  results : Option (List NekosBestItem)
deriving DecidableEq, Repr

/-- `WaifuPicsResponse`; `url` optional because the code guards `!data.url`
(undefined or empty string). -/
structure WaifuPicsResponse where
  url : Option String
deriving DecidableEq, Repr

/-- Innermost object of the Nekosia payload. -/
structure NekosiaOriginal where
  url : Option String
deriving DecidableEq, Repr

/-- `image` object of the Nekosia payload. -/
structure NekosiaImage where
  original : Option NekosiaOriginal
deriving DecidableEq, Repr

/-- Nekosia payload (`data.image.original.url` is the accessed path). -/
structure NekosiaResponse where
  image : Option NekosiaImage
deriving DecidableEq, Repr

/-- waifu.im artist object (`artist.name`, `artist.pixiv`). -/
structure WaifuImArtist where
  name : Option String := none
  pixiv : Option String := none
deriving DecidableEq, Repr

/-- One entry of the waifu.im `images` array; `url` is optional because
the adapter reads `image.url` without any check, so a first item lacking
the `url` field is accepted (JavaScript `undefined`, modelled as the
empty string in the built record). -/
structure WaifuImImage where
  url : Option String := none
  artist : Option WaifuImArtist := none
  source : Option String := none
deriving DecidableEq, Repr

/-- waifu.im payload; `images` optional because the code guards
`!data.images`. -/
structure WaifuImResponse where
  images : Option (List WaifuImImage)
deriving DecidableEq, Repr

/-- One entry of `NekosMoeRandomResponse.images`; `id` is optional because
the code guards `!img.id` (undefined or empty string). -/
structure NekosMoeImage where
  id : Option String
  artist : Option String := none
deriving DecidableEq, Repr

/-- `NekosMoeRandomResponse`; `images` optional (`data.images?.[0]`). -/
structure NekosMoeRandomResponse where
  images : Option (List NekosMoeImage)
deriving DecidableEq, Repr

/-- `DanbooruPost` (partial, as declared in `src/services/imageApi.ts`). -/
structure DanbooruPost where
  file_url : Option String := none
  large_file_url : Option String := none
  preview_file_url : Option String := none
  tag_string_artist : Option String := none
  source : Option String := none
deriving DecidableEq, Repr

/-- `NekosApiImage` (the fields the adapter accesses; `url` optional
because the code guards `!image.url`). -/
structure NekosApiImage where
  url : Option String
  artist_name : Option String := none
  source_url : Option String := none
deriving DecidableEq, Repr

/-- Nekos API payload: `Array.isArray(data) ? data : data?.items ?? []`. -/
inductive NekosApiPayload where
  | arr (items : List NekosApiImage)
  | obj (items : Option (List NekosApiImage))
deriving DecidableEq, Repr

/-- JavaScript truthiness for an optional string field
(`undefined` and `""` are falsy). -/
def strTruthy : Option String → Bool
  | some s => s ≠ ""
  | none => false

/-- `a || b` over optional string fields (JavaScript `||` skips falsy
values, including the empty string). -/
def orTruthy (a b : Option String) : Option String :=
  if strTruthy a then a else b

/-! ## Provider adapters -/

/-- Request URL of `fetchFromNekosBest` (category is hardcoded `waifu`). -/
def nekosBestUrl : String := "https://nekos.best/api/v2/waifu?amount=1"

/-- `fetchFromNekosBest` from `src/services/imageApi.ts`. Takes no NSFW
flag: nekos.best is SFW only. -/
def fetchFromNekosBest (resp : HttpResp NekosBestResponse) (proxy : Option String) :
    Except String AnimeImage :=
  if !resp.ok then
    .error (buildResponseError "nekos.best" nekosBestUrl resp.status resp.statusText
      resp.bodyText)
  else
    match resp.json with
    | none => .error (buildDataError "nekos.best" nekosBestUrl
        "Failed to parse JSON response" none)
    | some data =>
      match data.results with
      | none => .error (buildDataError "nekos.best" nekosBestUrl
          "No images returned from nekos.best API" (some resp.raw))
      | some [] => .error (buildDataError "nekos.best" nekosBestUrl
          "No images returned from nekos.best API" (some resp.raw))
      | some (result :: _) =>
        let directUrl := result.url.getD ""
        .ok { url := directUrl
              proxiedUrl := getProxiedImageUrl proxy directUrl
              animeName := result.anime_name
              artistName := result.artist_name
              artistHref := result.artist_href
              sourceUrl := result.source_url }

/-- Request URL of `fetchFromWaifuPics`. -/
def waifuPicsUrl (allowNSFW : Bool) : String :=
  "https://api.waifu.pics/" ++ (if allowNSFW then "nsfw" else "sfw") ++ "/waifu"

/-- `fetchFromWaifuPics` from `src/services/imageApi.ts`. -/
def fetchFromWaifuPics (allowNSFW : Bool) (resp : HttpResp WaifuPicsResponse)
    (proxy : Option String) : Except String AnimeImage :=
  let url := waifuPicsUrl allowNSFW
  if !resp.ok then
    .error (buildResponseError "waifu.pics" url resp.status resp.statusText resp.bodyText)
  else
    match resp.json with
    | none => .error (buildDataError "waifu.pics" url "Failed to parse JSON response" none)
    | some data =>
      if !strTruthy data.url then
        .error (buildDataError "waifu.pics" url
          "No image URL returned from waifu.pics API" (some resp.raw))
      else
        let directUrl := data.url.getD ""
        .ok { url := directUrl, proxiedUrl := getProxiedImageUrl proxy directUrl }

/-- Request URL of `fetchFromNekosia`. -/
def nekosiaUrl : String := "https://nekosia.cat/api/v1/images/catgirl"

/-- `fetchFromNekosia` from `src/services/imageApi.ts`. -/
def fetchFromNekosia (resp : HttpResp NekosiaResponse) (proxy : Option String) :
    Except String AnimeImage :=
  if !resp.ok then
    .error (buildResponseError "Nekosia" nekosiaUrl resp.status resp.statusText
      resp.bodyText)
  else
    match resp.json with
    | none => .error (buildDataError "Nekosia" nekosiaUrl
        "Failed to parse JSON response" none)
    | some data =>
      let url? : Option String := (data.image.bind (·.original)).bind (·.url)
      if !strTruthy url? then
        .error (buildDataError "Nekosia" nekosiaUrl
          "No image URL returned from Nekosia API" (some resp.raw))
      else
        let directUrl := url?.getD ""
        .ok { url := directUrl, proxiedUrl := getProxiedImageUrl proxy directUrl }

/-- Request URL of `fetchFromWaifuIm`. -/
def waifuImUrl (allowNSFW : Bool) : String :=
  "https://api.waifu.im/search?is_nsfw=" ++ (if allowNSFW then "true" else "false")

/-- `fetchFromWaifuIm` from `src/services/imageApi.ts`. -/
def fetchFromWaifuIm (allowNSFW : Bool) (resp : HttpResp WaifuImResponse)
    (proxy : Option String) : Except String AnimeImage :=
  let url := waifuImUrl allowNSFW
  if !resp.ok then
    .error (buildResponseError "waifu.im" url resp.status resp.statusText resp.bodyText)
  else
    match resp.json with
    | none => .error (buildDataError "waifu.im" url "Failed to parse JSON response" none)
    | some data =>
      match data.images with
      | none => .error (buildDataError "waifu.im" url
          "No images returned from waifu.im API" (some resp.raw))
      | some [] => .error (buildDataError "waifu.im" url
          "No images returned from waifu.im API" (some resp.raw))
      | some (image :: _) =>
        let directUrl := image.url.getD ""
        .ok { url := directUrl
              proxiedUrl := getProxiedImageUrl proxy directUrl
              artistName := image.artist.bind (·.name)
              artistHref := image.artist.bind (·.pixiv)
              sourceUrl := image.source }

/-- Request URL of `fetchFromNekosMoe`. -/
def nekosMoeUrl (allowNSFW : Bool) : String :=
  "https://nekos.moe/api/v1/random/image?count=1&nsfw="
    ++ (if allowNSFW then "true" else "false")

/-- `fetchFromNekosMoe` from `src/services/imageApi.ts`. -/
def fetchFromNekosMoe (allowNSFW : Bool) (resp : HttpResp NekosMoeRandomResponse)
    (proxy : Option String) : Except String AnimeImage :=
  let url := nekosMoeUrl allowNSFW
  if !resp.ok then
    .error (buildResponseError "nekos.moe" url resp.status resp.statusText resp.bodyText)
  else
    match resp.json with
    | none => .error (buildDataError "nekos.moe" url "Failed to parse JSON response" none)
    | some data =>
      let img? : Option NekosMoeImage := (data.images.getD []).head?
      match img? with
      | none => .error (buildDataError "nekos.moe" url
          "No images returned from nekos.moe API" (some resp.raw))
      | some img =>
        if !strTruthy img.id then
          .error (buildDataError "nekos.moe" url
            "No images returned from nekos.moe API" (some resp.raw))
        else
          let id := img.id.getD ""
          let imageUrl := "https://nekos.moe/image/" ++ id
          .ok { url := imageUrl
                proxiedUrl := getProxiedImageUrl proxy imageUrl
                artistName := img.artist
                sourceUrl := some ("https://nekos.moe/post/" ++ id) }

/-- Request URL of `fetchFromDanbooru` (the rating tag is
percent-encoded). -/
def danbooruUrl (allowNSFW : Bool) : String :=
  "https://danbooru.donmai.us/posts.json?limit=1&random=true&tags="
    ++ encodeURIComponent (if allowNSFW then "-rating:s" else "rating:s")

/-- `fetchFromDanbooru` from `src/services/imageApi.ts`; the image URL is
`post?.large_file_url || post?.file_url || post?.preview_file_url`. -/
def fetchFromDanbooru (allowNSFW : Bool) (resp : HttpResp (List DanbooruPost))
    (proxy : Option String) : Except String AnimeImage :=
  let apiUrl := danbooruUrl allowNSFW
  if !resp.ok then
    .error (buildResponseError "danbooru" apiUrl resp.status resp.statusText resp.bodyText)
  else
    match resp.json with
    | none => .error (buildDataError "danbooru" apiUrl "Failed to parse JSON response" none)
    | some posts =>
      let post? : Option DanbooruPost := posts.head?
      let url? : Option String :=
        orTruthy (post?.bind (·.large_file_url))
          (orTruthy (post?.bind (·.file_url)) (post?.bind (·.preview_file_url)))
      if !strTruthy url? then
        .error (buildDataError "danbooru" apiUrl
          "No image URL returned from danbooru API" (some resp.raw))
      else
        let url := url?.getD ""
        .ok { url := url
              proxiedUrl := getProxiedImageUrl proxy url
              artistName := post?.bind (·.tag_string_artist)
              sourceUrl := post?.bind (·.source) }

/-- `fetchFromPicRe` from `src/services/imageApi.ts`: no network request,
always succeeds with the static random-image URL. -/
def fetchFromPicRe (proxy : Option String) : Except String AnimeImage :=
  let imageUrl := "https://pic.re/image"
  .ok { url := imageUrl, proxiedUrl := getProxiedImageUrl proxy imageUrl }

/-- Direct request URL of `fetchFromNekosApi` (`URLSearchParams`: `limit=1`
always, `rating=safe` added when NSFW is not allowed). -/
def nekosApiBaseUrl (allowNSFW : Bool) : String :=
  "https://api.nekosapi.com/v4/images/random?"
    ++ (if allowNSFW then "limit=1" else "limit=1&rating=safe")

/-- `fetchFromNekosApi` from `src/services/imageApi.ts`: tries the direct
URL; if that `fetch` throws and a CORS proxy is configured, retries through
the proxy. `direct`/`proxied` are the two possible fetches' outcomes
(`.error m` models `fetch` itself throwing with message `m`). -/
def fetchFromNekosApi (allowNSFW : Bool)
    (direct : Except String (HttpResp NekosApiPayload))
    (proxied : Except String (HttpResp NekosApiPayload))
    (proxy : Option String) : Except String AnimeImage :=
  let baseUrl := nekosApiBaseUrl allowNSFW
  let fetched : Except String (HttpResp NekosApiPayload × String) :=
    match direct with
    | .ok resp => .ok (resp, baseUrl)
    | .error directError =>
      match proxy with
      | none => .error directError
      | some corsProxy =>
        let proxiedUrl := corsProxy ++ encodeURIComponent baseUrl
        match proxied with
        | .ok resp => .ok (resp, proxiedUrl)
        | .error proxyError =>
          .error (joinLines
            (["Nekos API request failed via direct and CORS proxy",
              "directUrl: " ++ baseUrl,
              "proxiedUrl: " ++ proxiedUrl]
              ++ (if directError ≠ "" then ["directError:", directError] else [])
              ++ (if proxyError ≠ "" then ["proxyError:", proxyError] else [])))
  match fetched with
  | .error e => .error e
  | .ok (resp, requestUrl) =>
    if !resp.ok then
      .error (buildResponseError "Nekos" requestUrl resp.status resp.statusText
        resp.bodyText)
    else
      match resp.json with
      | none => .error (buildDataError "Nekos" requestUrl
          "Failed to parse JSON response" none)
      | some data =>
        let images : List NekosApiImage :=
          match data with
          | .arr l => l
          | .obj items => items.getD []
        match images.head? with
        | none => .error (buildDataError "Nekos" requestUrl
            "No image URL returned from Nekos API" (some resp.raw))
        | some image =>
          if !strTruthy image.url then
            .error (buildDataError "Nekos" requestUrl
              "No image URL returned from Nekos API" (some resp.raw))
          else
            let directUrl := image.url.getD ""
            .ok { url := directUrl
                  proxiedUrl := getProxiedImageUrl proxy directUrl
                  artistName := image.artist_name
                  sourceUrl := image.source_url }

/-! ## Fetch environment and orchestrator -/

/-- Environment of one `fetchRandomImage` run: the CORS proxy setting
(`VITE_FIX_CORS_API_URL`), `Date.now()`, the value drawn by
`Math.random()`, and each provider's HTTP response for this run (each
adapter performs at most one fetch per run). -/
structure FetchEnv where
  proxy : Option String
  now : Nat
  rand : ℚ
  nekosBest : HttpResp NekosBestResponse
  waifuPics : HttpResp WaifuPicsResponse
  nekosia : HttpResp NekosiaResponse
  waifuIm : HttpResp WaifuImResponse
  nekosMoe : HttpResp NekosMoeRandomResponse
  danbooru : HttpResp (List DanbooruPost)
  nekosApiDirect : Except String (HttpResp NekosApiPayload)
  nekosApiProxied : Except String (HttpResp NekosApiPayload)

/-- `getFallbackImage` from `src/services/imageApi.ts`: placeholder record
pointing at picsum.photos with a `Date.now()` cache-busting query
parameter. -/
def getFallbackImage (env : FetchEnv) : AnimeImage :=
  let fallbackUrl := "https://picsum.photos/1920/1080?random=" ++ toString env.now
  { url := fallbackUrl, proxiedUrl := getProxiedImageUrl env.proxy fallbackUrl }

/-- The hardcoded source list of the `random` branch of
`fetchRandomImage` (line 562 of `src/services/imageApi.ts`). -/
def fetchRandomImageSources : List ImageSource :=
  [.nekos_best, .waifu_pics, .nekosia, .waifu_im,
   .nekos_moe, .danbooru, .pic_re, .nekosapi]

/-- JavaScript array indexing `l[i]`: `undefined` (`none`) out of range. -/
def jsIndex (l : List ImageSource) (i : ℤ) : Option ImageSource :=
  if 0 ≤ i then l.get? i.toNat else none

/-- The `switch (source)` dispatch inside `fetchRandomImage`; the `random`
case falls to `default` (there is no `case 'random'` in the switch). -/
def dispatchSource (s : ImageSource) (allowNSFW : Bool) (env : FetchEnv) :
    Except String AnimeImage :=
  match s with
  | .nekos_best => fetchFromNekosBest env.nekosBest env.proxy
  | .waifu_pics => fetchFromWaifuPics allowNSFW env.waifuPics env.proxy
  | .nekosia => fetchFromNekosia env.nekosia env.proxy
  | .waifu_im => fetchFromWaifuIm allowNSFW env.waifuIm env.proxy
  | .nekos_moe => fetchFromNekosMoe allowNSFW env.nekosMoe env.proxy
  | .danbooru => fetchFromDanbooru allowNSFW env.danbooru env.proxy
  | .pic_re => fetchFromPicRe env.proxy
  | .nekosapi => fetchFromNekosApi allowNSFW env.nekosApiDirect env.nekosApiProxied
      env.proxy
  | .fallback => .ok (getFallbackImage env)
  | .random => .error "Unknown image source: random"

/-- `fetchRandomImage` from `src/services/imageApi.ts`: resolves the
`random` meta-source by one `Math.random()` draw over the hardcoded list,
invokes the chosen adapter, falls back once to nekos.best when the chosen
source was not nekos.best, and finally to the placeholder. `source?` is
`none` when the JavaScript indexing produced `undefined` (then the switch
default throws, which the catch turns into the fallback ladder). -/
def fetchRandomImage (cfg : ImageApiConfig) (env : FetchEnv) :
    Except String AnimeImage :=
  let allowNSFW := cfg.allowNSFW.getD false
  let source? : Option ImageSource :=
    if cfg.source = .random then
      jsIndex fetchRandomImageSources
        (Int.floor (env.rand * (fetchRandomImageSources.length : ℚ)))
    else some cfg.source
  let primary : Except String AnimeImage :=
    match source? with
    | some s => dispatchSource s allowNSFW env
    | none => .error "Unknown image source: undefined"
  match primary with
  | .ok img => .ok img
  | .error _ =>
    if source? ≠ some .nekos_best then
      match fetchFromNekosBest env.nekosBest env.proxy with
      | .ok img => .ok img
      | .error _ => .ok (getFallbackImage env)
    else
      .ok (getFallbackImage env)

/-- The source pick of `loadNewImage`
(`imageSources[Math.floor(Math.random() * imageSources.length)]`,
`src/components/ImageBackground/ImageBackground.tsx` lines 131-132). -/
def pickRandomSource (imageSources : List ImageSource) (r : ℚ) : Option ImageSource :=
  jsIndex imageSources (Int.floor (r * (imageSources.length : ℚ)))

/-! ## ImageBackground refresh pipeline
(`src/components/ImageBackground/ImageBackground.tsx`)

JavaScript is single-threaded: the code between two `await`s executes
atomically. A `loadNewImage` run is therefore modelled as a list of atomic
state-transition blocks, one per stretch of synchronous code; interleaving
with other runs (or with unmount) can happen only at block boundaries. -/

/-- `copyState` values of the component. -/
inductive CopyState where
  | idle | copied | failed
deriving DecidableEq, Repr

/-- A callback invocation: `onImageLoad(image)` or `onImageError(error)`
(the error by its message). -/
inductive BgEvent where
  | load (img : AnimeImage)
  | error (msg : String)
deriving DecidableEq, Repr

/-- The component state touched by `loadNewImage`, plus the callback log
and a flag recording whether the component has been unmounted. -/
structure BgState where
  currentImage : Option AnimeImage := none
  isLoading : Bool := true
  hasError : Bool := false
  isTransitioning : Bool := false
  thumbhashDataUrl : Option String := none
  showThumbhash : Bool := false
  errorMessage : Option String := none
  copyState : CopyState := .idle
  unmounted : Bool := false
  events : List BgEvent := []
deriving DecidableEq, Repr

/-- Outcome environment of one `loadNewImage` run: how the awaited
`fetchRandomImage` promise settles, which URLs an in-memory `Image`
loads successfully, and what `generateThumbhash` returns (`none` when
generation failed and was skipped). -/
structure RefreshEnv where
  fetchResult : Except String AnimeImage
  loads : String → Bool
  thumbhash : Option String

/-- Synchronous code before the first `await` (lines 119-126): reset the
error state, mark transitioning. -/
def blockStart (s : BgState) : BgState :=
  { s with hasError := false, errorMessage := none, copyState := .idle,
           isTransitioning := true }

/-- Synchronous code after the 300 ms pacing delay (line 128):
`setIsLoading(true)`. -/
def blockSetLoading (s : BgState) : BgState :=
  { s with isLoading := true }

/-- Synchronous code after a successful preload when a thumbhash was
produced (lines 149-155): show the thumbhash preview. -/
def blockShowThumb (t : String) (s : BgState) : BgState :=
  { s with thumbhashDataUrl := some t, showThumbhash := true }

/-- Step 4 (lines 159-163): swap to the full image, clear the flags and
fire `onImageLoad`. -/
def blockSuccess (img : AnimeImage) (s : BgState) : BgState :=
  { s with showThumbhash := false, currentImage := some img, isLoading := false,
           isTransitioning := false, events := s.events ++ [BgEvent.load img] }

/-- The `catch` branch (lines 165-175): record the message, clear the
flags and fire `onImageError`. -/
def blockCatch (msg : String) (s : BgState) : BgState :=
  { s with errorMessage := some msg, isLoading := false, hasError := true,
           isTransitioning := false, showThumbhash := false,
           events := s.events ++ [BgEvent.error msg] }

/-- The atomic blocks of one `loadNewImage` run, given its outcome
environment. The preload (lines 140-146) sets `img.src = image.url` and
rejects with `Failed to preload image` on `onerror`; no other URL is
attempted. When no thumbhash was produced, step 4 runs in the same atomic
block as the preload resolution (no `await` between them). -/
def refreshTrace (env : RefreshEnv) : List (BgState → BgState) :=
  match env.fetchResult with
  | .error e => [blockStart, blockSetLoading, blockCatch e]
  | .ok img =>
    if env.loads img.url then
      match env.thumbhash with
      | some t => [blockStart, blockSetLoading, blockShowThumb t, blockSuccess img]
      | none => [blockStart, blockSetLoading, blockSuccess img]
    else
      [blockStart, blockSetLoading, blockCatch "Failed to preload image"]

/-- Execute a schedule of atomic blocks (possibly an interleaving of
several runs) from a starting state. -/
def runBlocks (bs : List (BgState → BgState)) (s : BgState) : BgState :=
  bs.foldl (fun st f => f st) s

/-- One `loadNewImage` run executed without interleaving. -/
def runRefresh (env : RefreshEnv) (s : BgState) : BgState :=
  runBlocks (refreshTrace env) s

/-- Unmounting the component (no block of `loadNewImage` reads this
flag). -/
def blockUnmount (s : BgState) : BgState :=
  { s with unmounted := true }

/-- Modelled from the spec (spec.md section 4.3, step 3), for comparison
with the code's preload: "on load failure, if a `proxiedUrl` exists and
was not already tried, retry loading via `proxiedUrl` before giving up".
Returns the URL that loaded. -/
def specPreload (loads : String → Bool) (img : AnimeImage) : Except String String :=
  if loads img.url then .ok img.url
  else
    match img.proxiedUrl with
    | some p =>
      if p ≠ img.url then
        if loads p then .ok p else .error "Failed to preload image"
      else .error "Failed to preload image"
    | none => .error "Failed to preload image"

/-! ## Concrete inputs used by the claim theorems -/

/-- A failing HTTP response (500, unreadable body). -/
def dummyHttp {α : Type} : HttpResp α :=
  { ok := false, status := 500, statusText := "Internal Server Error",
    bodyText := none, json := none, raw := "" }

/-- An environment in which every provider fetch fails (every HTTP
response is a 500 and both Nekos API fetches throw). -/
def envAllFail : FetchEnv :=
  { proxy := none, now := 1700000000000, rand := 0,
    nekosBest := dummyHttp, waifuPics := dummyHttp, nekosia := dummyHttp,
    waifuIm := dummyHttp, nekosMoe := dummyHttp, danbooru := dummyHttp,
    nekosApiDirect := .error "TypeError: Failed to fetch",
    nekosApiProxied := .error "TypeError: Failed to fetch" }

/-- nekos.best 200 response of the spec scenario:
`results: [{url: "https://x/img.png", anime_name: "Foo"}]`. -/
def respScenario : HttpResp NekosBestResponse :=
  { ok := true, status := 200, statusText := "OK", bodyText := some "",
    json := some { results := some [{ url := some "https://x/img.png",
                                      anime_name := some "Foo" }] },
    raw := "\x7b\x7d" }

/-- Environment of the spec scenario (`claim9`). -/
def envScenario : FetchEnv :=
  { envAllFail with nekosBest := respScenario }

/-- nekos.best 200 response whose single result carries an empty `url`. -/
def respEmptyUrl : HttpResp NekosBestResponse :=
  { ok := true, status := 200, statusText := "OK", bodyText := some "",
    json := some { results := some [{ url := some "" }] },
    raw := "" }

/-- Environment for the `claim1` counterexample: nekos.best succeeds but
its payload's image URL is the empty string. -/
def envEmptyUrl : FetchEnv :=
  { envAllFail with nekosBest := respEmptyUrl }

/-- nekos.best 200 response whose single result lacks the `url` field
entirely — a payload missing the expected image field. -/
def respMissingUrl : HttpResp NekosBestResponse :=
  { ok := true, status := 200, statusText := "OK", bodyText := some "",
    json := some { results := some [{ url := none }] },
    raw := "" }

/-- waifu.im 200 response whose single image lacks the `url` field
entirely — a payload missing the expected image field. -/
def respWaifuImMissingUrl : HttpResp WaifuImResponse :=
  { ok := true, status := 200, statusText := "OK", bodyText := some "",
    json := some { images := some [{ url := none }] },
    raw := "" }

/-- First refresh's image (`claim2` counterexample). -/
def imgA : AnimeImage := { url := "https://a/1.png" }

/-- Second refresh's image (`claim2` counterexample). -/
def imgB : AnimeImage := { url := "https://b/2.png" }

/-- Refresh outcome: fetch resolves with `imgA`, every URL preloads, no
thumbhash. -/
def envRefreshA : RefreshEnv :=
  { fetchResult := .ok imgA, loads := fun _ => true, thumbhash := none }

/-- Refresh outcome: fetch resolves with `imgB`, every URL preloads, no
thumbhash. -/
def envRefreshB : RefreshEnv :=
  { fetchResult := .ok imgB, loads := fun _ => true, thumbhash := none }

/-- A record carrying a `proxiedUrl` (`claim3` counterexample). -/
def imgWithProxy : AnimeImage :=
  { url := "https://direct/a.png", proxiedUrl := some "https://proxy/a.png" }

/-- Loading succeeds only through the proxy URL. -/
def loadsProxyOnly : String → Bool := fun u => u = "https://proxy/a.png"

/-- Refresh outcome for the `claim3` counterexample: the fetched record
carries a working `proxiedUrl` but its direct URL does not load. -/
def envRefreshProxy : RefreshEnv :=
  { fetchResult := .ok imgWithProxy, loads := loadsProxyOnly, thumbhash := none }

/-- Refresh outcome in which the awaited fetch promise rejects. -/
def envRefreshFetchFail : RefreshEnv :=
  { fetchResult := .error "nekos.best API error", loads := fun _ => true,
    thumbhash := none }

/-! ## Substring containment -/

/-- `needle` occurs verbatim inside `hay`. -/
def strContains (hay needle : String) : Prop :=
  ∃ a b : List Char, hay.data = a ++ needle.data ++ b

theorem strContains_head (needle suffix : String) :
    strContains (needle ++ suffix) needle :=
  ⟨[], suffix.data, by simp [String.data_append]⟩

theorem strContains_tail (head needle : String) :
    strContains (head ++ needle) needle :=
  ⟨head.data, [], by simp [String.data_append]⟩

theorem strContains_left {hay needle : String} (suffix : String)
    (h : strContains hay needle) : strContains (hay ++ suffix) needle := by
  obtain ⟨a, b, hab⟩ := h
  exact ⟨a, b ++ suffix.data, by simp [String.data_append, hab]⟩

theorem strContains_right (head : String) {hay needle : String}
    (h : strContains hay needle) : strContains (head ++ hay) needle := by
  obtain ⟨a, b, hab⟩ := h
  exact ⟨head.data ++ a, b, by simp [String.data_append, hab]⟩

/-- `joinLines` on a list with at least two lines. -/
theorem joinLines_cons_cons (l₁ l₂ : String) (rest : List String) :
    joinLines (l₁ :: l₂ :: rest) = l₁ ++ "\n" ++ joinLines (l₂ :: rest) := rfl

/-- A joined error message whose first line starts with the provider name
and whose second line carries the request URL contains both verbatim. -/
theorem joinLines_error_contains (nm lineTail u l₃ : String) (rest : List String) :
    strContains (joinLines ((nm ++ lineTail) :: ("requestUrl: " ++ u) :: l₃ :: rest)) nm ∧
    strContains (joinLines ((nm ++ lineTail) :: ("requestUrl: " ++ u) :: l₃ :: rest)) u := by
  rw [joinLines_cons_cons, joinLines_cons_cons]
  constructor
  · exact strContains_left _ (strContains_left _ (strContains_head nm _))
  · exact strContains_right _
      (strContains_left _ (strContains_left _ (strContains_tail _ u)))

/-- A `buildResponseError` message contains the provider name and the
request URL verbatim. -/
theorem buildResponseError_contains (nm u : String) (st : Nat) (stt : String)
    (bt : Option String) :
    strContains (buildResponseError nm u st stt bt) nm ∧
    strContains (buildResponseError nm u st stt bt) u :=
  joinLines_error_contains nm " API error" u _ _

/-- A `buildDataError` message contains the provider name and the request
URL verbatim. -/
theorem buildDataError_contains (nm u detail : String) (data? : Option String) :
    strContains (buildDataError nm u detail data?) nm ∧
    strContains (buildDataError nm u detail data?) u :=
  joinLines_error_contains nm " API error" u detail _

/-! ## Orchestrator helper lemmas -/

/-- For a config whose source is not the `random` meta-value,
`fetchRandomImage` is the chosen adapter followed by the nekos.best retry
and the placeholder fallback. -/
theorem fetchRandomImage_resolved (s : ImageSource) (hs : s ≠ .random)
    (nsfw : Option Bool) (fb : Option String) (env : FetchEnv) :
    fetchRandomImage { source := s, allowNSFW := nsfw, fallbackUrl := fb } env =
      match dispatchSource s (nsfw.getD false) env with
      | .ok img => .ok img
      | .error _ =>
        if s ≠ .nekos_best then
          match fetchFromNekosBest env.nekosBest env.proxy with
          | .ok img => .ok img
          | .error _ => .ok (getFallbackImage env)
        else .ok (getFallbackImage env) := by
  unfold fetchRandomImage
  simp only [if_neg hs, ne_eq, Option.some.injEq]

/-- `dispatchSource` does not read the `Math.random()` draw. -/
theorem dispatchSource_rand_independent (s : ImageSource) (nsfw : Bool)
    (env : FetchEnv) (q : ℚ) :
    dispatchSource s nsfw { env with rand := q } = dispatchSource s nsfw env := by
  cases s <;> rfl

/-- Selectable sources are neither `random` nor `fallback`. -/
theorem mem_ALL_IMAGE_SOURCES_ne (s : ImageSource) (h : s ∈ ALL_IMAGE_SOURCES) :
    s ≠ .random ∧ s ≠ .fallback := by
  fin_cases h <;> exact ⟨by simp, by simp⟩

/-! ## Claims -/

/-- C9: with config `{source: 'nekos_best', allowNSFW: false}` and a
mocked 200 response whose body contains
`results: [{url: "https://x/img.png", anime_name: "Foo"}]`, the fetch
resolves with a record whose `url` is `https://x/img.png` and whose
`animeName` is `Foo`. -/
theorem claim9_nekos_best_scenario :
    ∃ img : AnimeImage,
      fetchRandomImage { source := .nekos_best, allowNSFW := some false }
        envScenario = .ok img ∧
      img.url = "https://x/img.png" ∧ img.animeName = some "Foo" :=
  ⟨_, rfl, rfl, rfl⟩

/-- C10: the nekos.best adapter's request URL is the fixed
`https://nekos.best/api/v2/waifu?amount=1`, and with source `nekos_best`
the whole orchestrator run is independent of the `allowNSFW` flag: for
any environment (i.e. the same network responses) and any two flag
values, the result records are identical. -/
theorem claim10_nekos_best_nsfw_noninterference :
    nekosBestUrl = "https://nekos.best/api/v2/waifu?amount=1" ∧
    ∀ (b₁ b₂ : Option Bool) (fb : Option String) (env : FetchEnv),
      fetchRandomImage { source := .nekos_best, allowNSFW := b₁, fallbackUrl := fb }
        env =
      fetchRandomImage { source := .nekos_best, allowNSFW := b₂, fallbackUrl := fb }
        env := by
  refine ⟨rfl, fun b₁ b₂ fb env => ?_⟩
  rfl

/-- C4: when the chosen adapter fails, the orchestrator retries exactly
once against nekos.best iff the chosen provider was not nekos.best; if
the retry also fails, or the chosen provider already was nekos.best, it
returns the synthesized placeholder record, whose URL carries the
`Date.now()` cache-busting query parameter; the placeholder step is a
total function and cannot fail (every conclusion is `.ok`). -/
theorem claim4_fallback_ladder (s : ImageSource) (nsfw : Option Bool)
    (fb : Option String) (env : FetchEnv) (e : String)
    (hmem : s ∈ ALL_IMAGE_SOURCES)
    (hfail : dispatchSource s (nsfw.getD false) env = .error e) :
    (∀ r, s ≠ .nekos_best →
      fetchFromNekosBest env.nekosBest env.proxy = .ok r →
      fetchRandomImage { source := s, allowNSFW := nsfw, fallbackUrl := fb } env
        = .ok r) ∧
    (∀ e₂, fetchFromNekosBest env.nekosBest env.proxy = .error e₂ →
      fetchRandomImage { source := s, allowNSFW := nsfw, fallbackUrl := fb } env
        = .ok (getFallbackImage env)) ∧
    (s = .nekos_best →
      fetchRandomImage { source := s, allowNSFW := nsfw, fallbackUrl := fb } env
        = .ok (getFallbackImage env)) ∧
    (getFallbackImage env).url
      = "https://picsum.photos/1920/1080?random=" ++ toString env.now := by
  have hs : s ≠ .random := (mem_ALL_IMAGE_SOURCES_ne s hmem).1
  rw [fetchRandomImage_resolved s hs, hfail]
  refine ⟨?_, ?_, ?_, rfl⟩
  · intro r hne hok
    simp only [if_pos hne, hok]
  · intro e₂ herr
    by_cases hne : s = .nekos_best
    · simp [hne]
    · simp only [if_pos hne, herr]
  · intro heq
    simp [heq]

/-- C4 witness: waifu.pics fails with a 500 and the nekos.best retry
fails too, so the orchestrator returns the placeholder record. -/
theorem claim4_fallback_ladder_witness :
    fetchRandomImage ⟨.waifu_pics, some true, none⟩ envAllFail
      = .ok (getFallbackImage envAllFail) :=
  ((claim4_fallback_ladder .waifu_pics (some true) none envAllFail _
      (by decide) rfl).2.1) _ rfl

/-- C1 counterexample: with source `nekos_best` and a 200 response whose
payload is `results: [{url: ""}]` (a run in which no provider fetch
fails), `fetchRandomImage` resolves with a record whose `url` is the
empty string — so the returned record's `url` is not a non-empty string
for every input. -/
theorem claim1_counterexample_empty_url :
    ∃ img : AnimeImage,
      fetchRandomImage { source := .nekos_best, allowNSFW := some false }
        envEmptyUrl = .ok img ∧ img.url = "" :=
  ⟨_, rfl, rfl⟩

/-- C1 amended: for every config and environment `fetchRandomImage`
resolves with a record (it never rejects); and whenever the chosen
adapter and the nekos.best retry both fail, the returned record is the
placeholder, whose `url` is a non-empty string. -/
theorem claim1_never_rejects_amended :
    (∀ (cfg : ImageApiConfig) (env : FetchEnv),
      ∃ img, fetchRandomImage cfg env = .ok img) ∧
    (∀ (s : ImageSource) (nsfw : Option Bool) (fb : Option String)
        (env : FetchEnv) (e₁ e₂ : String),
      s ≠ .random →
      dispatchSource s (nsfw.getD false) env = .error e₁ →
      fetchFromNekosBest env.nekosBest env.proxy = .error e₂ →
      fetchRandomImage { source := s, allowNSFW := nsfw, fallbackUrl := fb } env
          = .ok (getFallbackImage env) ∧
        (getFallbackImage env).url ≠ "") := by
  constructor
  · intro cfg env
    unfold fetchRandomImage
    dsimp only
    repeat' first
    | exact ⟨_, rfl⟩
    | split
  · intro s nsfw fb env e₁ e₂ hs h₁ h₂
    rw [fetchRandomImage_resolved s hs, h₁]
    refine ⟨?_, ?_⟩
    · by_cases hne : s = .nekos_best
      · simp [hne]
      · rw [if_pos hne, h₂]
    · intro hempty
      have hd : ("https://picsum.photos/1920/1080?random=").data
          ++ (toString env.now).data = [] := by
        rw [← String.data_append]
        rw [show ("https://picsum.photos/1920/1080?random=" ++ toString env.now)
            = (getFallbackImage env).url from rfl, hempty]
      exact absurd (List.append_eq_nil.mp hd).1 (by decide)

/-- C1 witness: every provider fetch failing, the run resolves with the
non-empty placeholder URL. -/
theorem claim1_never_rejects_witness :
    fetchRandomImage ⟨.danbooru, some false, none⟩ envAllFail
        = .ok (getFallbackImage envAllFail) ∧
      (getFallbackImage envAllFail).url ≠ "" :=
  claim1_never_rejects_amended.2 .danbooru (some false) none envAllFail _ _
    (by decide) rfl rfl

/-- C2 counterexample: refresh R1 (image `imgA`) runs up to its preload
suspension, refresh R2 (image `imgB`) then starts and completes — the
newer refresh's state is visible — and finally R1's late success block
runs: it overwrites the visible image back to `imgA` and fires
`onImageLoad(imgA)`, so a superseded refresh's late result does mutate
visible state and does fire a callback. -/
theorem claim2_counterexample_no_cancellation :
    (runBlocks ((refreshTrace envRefreshA).take 2 ++ refreshTrace envRefreshB)
        {}).currentImage = some imgB ∧
    (runBlocks ((refreshTrace envRefreshA).take 2 ++ refreshTrace envRefreshB)
        {}).events = [BgEvent.load imgB] ∧
    (runBlocks ((refreshTrace envRefreshA).take 2 ++ refreshTrace envRefreshB
        ++ (refreshTrace envRefreshA).drop 2) {}).currentImage = some imgA ∧
    (runBlocks ((refreshTrace envRefreshA).take 2 ++ refreshTrace envRefreshB
        ++ (refreshTrace envRefreshA).drop 2) {}).events
      = [BgEvent.load imgB, BgEvent.load imgA] :=
  ⟨rfl, rfl, rfl, rfl⟩

/-- C2 amended: `loadNewImage` has no cancellation flag or generation
counter — every refresh whose fetch resolves and whose preload succeeds
applies its own image to visible state and fires its callback, from any
starting state (in particular from a state a newer refresh has already
written, and regardless of the unmount flag). -/
theorem claim2_amended_every_completion_applies (env : RefreshEnv)
    (img : AnimeImage) (s : BgState)
    (hf : env.fetchResult = .ok img) (hl : env.loads img.url = true) :
    (runRefresh env s).currentImage = some img ∧
    (runRefresh env s).events = s.events ++ [BgEvent.load img] := by
  unfold runRefresh refreshTrace
  rw [hf]
  cases ht : env.thumbhash <;>
    simp [hl, ht, runBlocks, blockStart, blockSetLoading, blockShowThumb, blockSuccess]

/-- C2 witness: a concrete completed refresh applied from a state whose
unmount flag is set and which already shows another image. -/
theorem claim2_amended_witness :
    (runRefresh envRefreshA { currentImage := some imgB, unmounted := true }).currentImage
        = some imgA ∧
    (runRefresh envRefreshA { currentImage := some imgB, unmounted := true }).events
        = [] ++ [BgEvent.load imgA] :=
  claim2_amended_every_completion_applies envRefreshA imgA
    { currentImage := some imgB, unmounted := true } rfl rfl

/-- C3 counterexample: the fetched record carries a `proxiedUrl` that
does load while the direct URL does not; the refresh nevertheless fails
with `Failed to preload image` without trying the proxy, while the
spec-modelled preload (one retry via `proxiedUrl`) succeeds. -/
theorem claim3_counterexample_no_proxy_retry :
    loadsProxyOnly "https://proxy/a.png" = true ∧
    imgWithProxy.proxiedUrl = some "https://proxy/a.png" ∧
    (runRefresh envRefreshProxy {}).hasError = true ∧
    (runRefresh envRefreshProxy {}).events
      = [BgEvent.error "Failed to preload image"] ∧
    specPreload loadsProxyOnly imgWithProxy = .ok "https://proxy/a.png" :=
  ⟨rfl, rfl, rfl, rfl, rfl⟩

/-- C3 amended: the preload step attempts only the record's direct `url`
and fails immediately on failure; `proxiedUrl` is never consulted — the
refresh fails even when the record carries a `proxiedUrl` that would
load. -/
theorem claim3_amended_preload_never_retries (env : RefreshEnv)
    (img : AnimeImage) (p : String) (s : BgState)
    (hf : env.fetchResult = .ok img)
    (_hp : img.proxiedUrl = some p) (_hpl : env.loads p = true)
    (hl : env.loads img.url = false) :
    (runRefresh env s).hasError = true ∧
    (runRefresh env s).events
      = s.events ++ [BgEvent.error "Failed to preload image"] := by
  unfold runRefresh refreshTrace
  rw [hf]
  simp [hl, runBlocks, blockStart, blockSetLoading, blockCatch]

/-- C3 witness: the concrete proxy-carrying record of the
counterexample, run from the initial state. -/
theorem claim3_amended_witness :
    (runRefresh envRefreshProxy {}).hasError = true ∧
    (runRefresh envRefreshProxy {}).events
      = ([] : List BgEvent) ++ [BgEvent.error "Failed to preload image"] :=
  claim3_amended_preload_never_retries envRefreshProxy imgWithProxy
    "https://proxy/a.png" {} rfl rfl rfl rfl

/-- C7 counterexample: the component unmounts while a refresh is
suspended at its preload; the refresh then completes and still fires
`onImageLoad` — so it is not the case that neither callback fires when
unmount precedes completion. -/
theorem claim7_counterexample_unmount_still_fires :
    (runBlocks ((refreshTrace envRefreshA).take 2 ++ [blockUnmount]
        ++ (refreshTrace envRefreshA).drop 2) {}).unmounted = true ∧
    (runBlocks ((refreshTrace envRefreshA).take 2 ++ [blockUnmount]
        ++ (refreshTrace envRefreshA).drop 2) {}).events
      = [BgEvent.load imgA] :=
  ⟨rfl, rfl⟩

/-- C7 amended: every `loadNewImage` run that reaches its terminal state
fires exactly one callback exactly once — one event is appended to the
log, never two, never zero, never both kinds — from every starting
state, including states whose unmount flag is set (unmount does not
suppress the callback). -/
theorem claim7_amended_exactly_one_callback (env : RefreshEnv) (s : BgState) :
    ∃ e : BgEvent, (runRefresh env s).events = s.events ++ [e] := by
  unfold runRefresh refreshTrace
  cases hf : env.fetchResult with
  | error msg => exact ⟨.error msg, by simp [runBlocks, blockStart, blockSetLoading, blockCatch]⟩
  | ok img =>
    by_cases hl : env.loads img.url
    · cases ht : env.thumbhash with
      | some t => exact ⟨.load img, by simp [hl, runBlocks, blockStart,
          blockSetLoading, blockShowThumb, blockSuccess]⟩
      | none => exact ⟨.load img, by simp [hl, runBlocks, blockStart,
          blockSetLoading, blockSuccess]⟩
    · exact ⟨.error "Failed to preload image", by simp [hl, runBlocks,
        blockStart, blockSetLoading, blockCatch]⟩

/-- C8: on any failure between fetching the record and generating the
placeholder — the awaited fetch rejecting, or the preload failing — the
catch branch clears the loading and transitioning flags, raises the
error flag, records and reports the error through the error callback,
and leaves the previously displayed image unchanged. -/
theorem claim8_failure_cleanup (env : RefreshEnv) (s : BgState) (msg : String)
    (hfail : env.fetchResult = .error msg ∨
      (∃ img, env.fetchResult = .ok img ∧ env.loads img.url = false ∧
        msg = "Failed to preload image")) :
    (runRefresh env s).isLoading = false ∧
    (runRefresh env s).isTransitioning = false ∧
    (runRefresh env s).hasError = true ∧
    (runRefresh env s).errorMessage = some msg ∧
    (runRefresh env s).currentImage = s.currentImage ∧
    (runRefresh env s).events = s.events ++ [BgEvent.error msg] := by
  unfold runRefresh refreshTrace
  rcases hfail with hf | ⟨img, hf, hl, hmsg⟩
  · rw [hf]
    simp [runBlocks, blockStart, blockSetLoading, blockCatch]
  · rw [hf]
    subst hmsg
    simp [hl, runBlocks, blockStart, blockSetLoading, blockCatch]

/-- C8 witness: a refresh whose awaited fetch promise rejects, run from
a state already displaying an image. -/
theorem claim8_failure_cleanup_witness :
    (runRefresh envRefreshFetchFail { currentImage := some imgB }).isLoading = false ∧
    (runRefresh envRefreshFetchFail { currentImage := some imgB }).isTransitioning
        = false ∧
    (runRefresh envRefreshFetchFail { currentImage := some imgB }).hasError = true ∧
    (runRefresh envRefreshFetchFail { currentImage := some imgB }).errorMessage
        = some "nekos.best API error" ∧
    (runRefresh envRefreshFetchFail { currentImage := some imgB }).currentImage
        = ({ currentImage := some imgB } : BgState).currentImage ∧
    (runRefresh envRefreshFetchFail { currentImage := some imgB }).events
        = ({ currentImage := some imgB } : BgState).events
            ++ [BgEvent.error "nekos.best API error"] :=
  claim8_failure_cleanup envRefreshFetchFail { currentImage := some imgB }
    "nekos.best API error" (Or.inl rfl)

/-- C5: for every enabled-provider set of size at least one (providers
only, no meta-values) and every `Math.random()` draw `r ∈ [0,1)`, the
component's source pick selects an element of the enabled set — never a
provider outside it, never `random` or `fallback` — and the orchestrator
then performs no second draw (its result is independent of its own
`Math.random()` value). The draw is uniform: index `i` is selected
exactly when `r` lies in `[i/n, (i+1)/n)`, an interval of length `1/n`
for each of the `n` enabled providers. -/
theorem claim5_uniform_pick_from_enabled (enabled : List ImageSource) (r : ℚ)
    (hne : enabled ≠ []) (hsub : ∀ x ∈ enabled, x ∈ ALL_IMAGE_SOURCES)
    (h0 : 0 ≤ r) (h1 : r < 1) :
    (∃ s, pickRandomSource enabled r = some s ∧ s ∈ enabled ∧
      s ≠ .random ∧ s ≠ .fallback ∧
      (∀ (nsfw : Option Bool) (fb : Option String) (env : FetchEnv) (q : ℚ),
        fetchRandomImage { source := s, allowNSFW := nsfw, fallbackUrl := fb }
          { env with rand := q } =
        fetchRandomImage { source := s, allowNSFW := nsfw, fallbackUrl := fb }
          env)) ∧
    (∀ i : ℕ, i < enabled.length →
      (Int.floor (r * (enabled.length : ℚ)) = (i : ℤ) ↔
        (i : ℚ) / (enabled.length : ℚ) ≤ r ∧
          r < ((i : ℚ) + 1) / (enabled.length : ℚ))) := by
  have hlen : 0 < enabled.length := List.length_pos.mpr hne
  have hlenQ : (0 : ℚ) < (enabled.length : ℚ) := by exact_mod_cast hlen
  constructor
  · have hfnn : 0 ≤ Int.floor (r * (enabled.length : ℚ)) :=
      Int.floor_nonneg.mpr (mul_nonneg h0 hlenQ.le)
    have hflt : Int.floor (r * (enabled.length : ℚ)) < (enabled.length : ℤ) :=
      Int.floor_lt.mpr (by exact_mod_cast mul_lt_of_lt_one_left hlenQ h1)
    have hidx : (Int.floor (r * (enabled.length : ℚ))).toNat < enabled.length := by
      omega
    refine ⟨enabled.get ⟨(Int.floor (r * (enabled.length : ℚ))).toNat, hidx⟩, ?_, ?_, ?_, ?_, ?_⟩
    · unfold pickRandomSource jsIndex
      rw [if_pos hfnn]
      exact List.get?_eq_get hidx
    · exact List.get_mem _ _ _
    · exact (mem_ALL_IMAGE_SOURCES_ne _ (hsub _ (List.get_mem _ _ _))).1
    · exact (mem_ALL_IMAGE_SOURCES_ne _ (hsub _ (List.get_mem _ _ _))).2
    · intro nsfw fb env q
      have hsr : enabled.get ⟨(Int.floor (r * (enabled.length : ℚ))).toNat, hidx⟩
          ≠ .random :=
        (mem_ALL_IMAGE_SOURCES_ne _ (hsub _ (List.get_mem enabled _ hidx))).1
      rw [fetchRandomImage_resolved _ hsr, fetchRandomImage_resolved _ hsr,
        dispatchSource_rand_independent]
      rfl
  · intro i hi
    rw [Int.floor_eq_iff, div_le_iff₀ hlenQ, lt_div_iff₀ hlenQ]
    push_cast
    constructor
    · exact fun h => ⟨h.1, h.2⟩
    · exact fun h => ⟨h.1, h.2⟩

/-- C5 witness: with only waifu.pics and danbooru enabled and draw
`r = 0.6`, the pick is danbooru (the second enabled provider). -/
theorem claim5_uniform_pick_witness :
    ∃ s, pickRandomSource [ImageSource.waifu_pics, ImageSource.danbooru]
        ((3 : ℚ) / 5) = some s ∧
      s ∈ [ImageSource.waifu_pics, ImageSource.danbooru] ∧
      s ≠ .random ∧ s ≠ .fallback ∧
      (∀ (nsfw : Option Bool) (fb : Option String) (env : FetchEnv) (q : ℚ),
        fetchRandomImage { source := s, allowNSFW := nsfw, fallbackUrl := fb }
          { env with rand := q } =
        fetchRandomImage { source := s, allowNSFW := nsfw, fallbackUrl := fb }
          env) :=
  (claim5_uniform_pick_from_enabled [ImageSource.waifu_pics, ImageSource.danbooru]
      ((3 : ℚ) / 5) (by decide) (by decide) (by norm_num) (by norm_num)).1

/-- C6 amended: every provider adapter, on a non-OK HTTP response, on an
unparsable JSON body, or on a payload failing the missing-image-field
check that the adapter actually performs, rejects with an error whose
message contains the provider's name and the request URL verbatim (for
the Nekos API adapter, the URL actually requested: direct, or proxied
when the direct fetch threw and a proxy is configured). The checks
performed are: nekos.best and waifu.im check only that the
`results`/`images` array is present and non-empty (a first item lacking
the `url` field is accepted as a success — see the counterexample);
waifu.pics, Nekosia, nekos.moe, danbooru and Nekos API also reject a
falsy (missing or empty) image field. The pic.re adapter performs no
fetch and has none of these failure modes (it always resolves). -/
theorem claim6_adapter_errors_carry_name_and_url :
    -- nekos.best
    (∀ (resp : HttpResp NekosBestResponse) (proxy : Option String),
      resp.ok = false →
      ∃ m, fetchFromNekosBest resp proxy = .error m ∧
        strContains m "nekos.best" ∧ strContains m nekosBestUrl) ∧
    (∀ (resp : HttpResp NekosBestResponse) (proxy : Option String),
      resp.ok = true → resp.json = none →
      ∃ m, fetchFromNekosBest resp proxy = .error m ∧
        strContains m "nekos.best" ∧ strContains m nekosBestUrl) ∧
    (∀ (resp : HttpResp NekosBestResponse) (proxy : Option String)
        (d : NekosBestResponse),
      resp.ok = true → resp.json = some d →
      (d.results = none ∨ d.results = some []) →
      ∃ m, fetchFromNekosBest resp proxy = .error m ∧
        strContains m "nekos.best" ∧ strContains m nekosBestUrl) ∧
    -- waifu.pics
    (∀ (nsfw : Bool) (resp : HttpResp WaifuPicsResponse) (proxy : Option String),
      resp.ok = false →
      ∃ m, fetchFromWaifuPics nsfw resp proxy = .error m ∧
        strContains m "waifu.pics" ∧ strContains m (waifuPicsUrl nsfw)) ∧
    (∀ (nsfw : Bool) (resp : HttpResp WaifuPicsResponse) (proxy : Option String),
      resp.ok = true → resp.json = none →
      ∃ m, fetchFromWaifuPics nsfw resp proxy = .error m ∧
        strContains m "waifu.pics" ∧ strContains m (waifuPicsUrl nsfw)) ∧
    (∀ (nsfw : Bool) (resp : HttpResp WaifuPicsResponse) (proxy : Option String)
        (d : WaifuPicsResponse),
      resp.ok = true → resp.json = some d → strTruthy d.url = false →
      ∃ m, fetchFromWaifuPics nsfw resp proxy = .error m ∧
        strContains m "waifu.pics" ∧ strContains m (waifuPicsUrl nsfw)) ∧
    -- Nekosia
    (∀ (resp : HttpResp NekosiaResponse) (proxy : Option String),
      resp.ok = false →
      ∃ m, fetchFromNekosia resp proxy = .error m ∧
        strContains m "Nekosia" ∧ strContains m nekosiaUrl) ∧
    (∀ (resp : HttpResp NekosiaResponse) (proxy : Option String),
      resp.ok = true → resp.json = none →
      ∃ m, fetchFromNekosia resp proxy = .error m ∧
        strContains m "Nekosia" ∧ strContains m nekosiaUrl) ∧
    (∀ (resp : HttpResp NekosiaResponse) (proxy : Option String)
        (d : NekosiaResponse),
      resp.ok = true → resp.json = some d →
      strTruthy ((d.image.bind (·.original)).bind (·.url)) = false →
      ∃ m, fetchFromNekosia resp proxy = .error m ∧
        strContains m "Nekosia" ∧ strContains m nekosiaUrl) ∧
    -- waifu.im
    (∀ (nsfw : Bool) (resp : HttpResp WaifuImResponse) (proxy : Option String),
      resp.ok = false →
      ∃ m, fetchFromWaifuIm nsfw resp proxy = .error m ∧
        strContains m "waifu.im" ∧ strContains m (waifuImUrl nsfw)) ∧
    (∀ (nsfw : Bool) (resp : HttpResp WaifuImResponse) (proxy : Option String),
      resp.ok = true → resp.json = none →
      ∃ m, fetchFromWaifuIm nsfw resp proxy = .error m ∧
        strContains m "waifu.im" ∧ strContains m (waifuImUrl nsfw)) ∧
    (∀ (nsfw : Bool) (resp : HttpResp WaifuImResponse) (proxy : Option String)
        (d : WaifuImResponse),
      resp.ok = true → resp.json = some d →
      (d.images = none ∨ d.images = some []) →
      ∃ m, fetchFromWaifuIm nsfw resp proxy = .error m ∧
        strContains m "waifu.im" ∧ strContains m (waifuImUrl nsfw)) ∧
    -- nekos.moe
    (∀ (nsfw : Bool) (resp : HttpResp NekosMoeRandomResponse) (proxy : Option String),
      resp.ok = false →
      ∃ m, fetchFromNekosMoe nsfw resp proxy = .error m ∧
        strContains m "nekos.moe" ∧ strContains m (nekosMoeUrl nsfw)) ∧
    (∀ (nsfw : Bool) (resp : HttpResp NekosMoeRandomResponse) (proxy : Option String),
      resp.ok = true → resp.json = none →
      ∃ m, fetchFromNekosMoe nsfw resp proxy = .error m ∧
        strContains m "nekos.moe" ∧ strContains m (nekosMoeUrl nsfw)) ∧
    (∀ (nsfw : Bool) (resp : HttpResp NekosMoeRandomResponse) (proxy : Option String)
        (d : NekosMoeRandomResponse),
      resp.ok = true → resp.json = some d →
      (d.images.getD []).head? = none →
      ∃ m, fetchFromNekosMoe nsfw resp proxy = .error m ∧
        strContains m "nekos.moe" ∧ strContains m (nekosMoeUrl nsfw)) ∧
    (∀ (nsfw : Bool) (resp : HttpResp NekosMoeRandomResponse) (proxy : Option String)
        (d : NekosMoeRandomResponse) (img : NekosMoeImage),
      resp.ok = true → resp.json = some d →
      (d.images.getD []).head? = some img → strTruthy img.id = false →
      ∃ m, fetchFromNekosMoe nsfw resp proxy = .error m ∧
        strContains m "nekos.moe" ∧ strContains m (nekosMoeUrl nsfw)) ∧
    -- danbooru
    (∀ (nsfw : Bool) (resp : HttpResp (List DanbooruPost)) (proxy : Option String),
      resp.ok = false →
      ∃ m, fetchFromDanbooru nsfw resp proxy = .error m ∧
        strContains m "danbooru" ∧ strContains m (danbooruUrl nsfw)) ∧
    (∀ (nsfw : Bool) (resp : HttpResp (List DanbooruPost)) (proxy : Option String),
      resp.ok = true → resp.json = none →
      ∃ m, fetchFromDanbooru nsfw resp proxy = .error m ∧
        strContains m "danbooru" ∧ strContains m (danbooruUrl nsfw)) ∧
    (∀ (nsfw : Bool) (resp : HttpResp (List DanbooruPost)) (proxy : Option String)
        (posts : List DanbooruPost),
      resp.ok = true → resp.json = some posts →
      strTruthy (orTruthy (posts.head?.bind (·.large_file_url))
        (orTruthy (posts.head?.bind (·.file_url))
          (posts.head?.bind (·.preview_file_url)))) = false →
      ∃ m, fetchFromDanbooru nsfw resp proxy = .error m ∧
        strContains m "danbooru" ∧ strContains m (danbooruUrl nsfw)) ∧
    -- Nekos API, direct fetch succeeded
    (∀ (nsfw : Bool) (resp : HttpResp NekosApiPayload)
        (proxied : Except String (HttpResp NekosApiPayload)) (proxy : Option String),
      resp.ok = false →
      ∃ m, fetchFromNekosApi nsfw (.ok resp) proxied proxy = .error m ∧
        strContains m "Nekos" ∧ strContains m (nekosApiBaseUrl nsfw)) ∧
    (∀ (nsfw : Bool) (resp : HttpResp NekosApiPayload)
        (proxied : Except String (HttpResp NekosApiPayload)) (proxy : Option String),
      resp.ok = true → resp.json = none →
      ∃ m, fetchFromNekosApi nsfw (.ok resp) proxied proxy = .error m ∧
        strContains m "Nekos" ∧ strContains m (nekosApiBaseUrl nsfw)) ∧
    (∀ (nsfw : Bool) (resp : HttpResp NekosApiPayload)
        (proxied : Except String (HttpResp NekosApiPayload)) (proxy : Option String)
        (d : NekosApiPayload),
      resp.ok = true → resp.json = some d →
      (match d with | .arr l => l | .obj items => items.getD []) = [] →
      ∃ m, fetchFromNekosApi nsfw (.ok resp) proxied proxy = .error m ∧
        strContains m "Nekos" ∧ strContains m (nekosApiBaseUrl nsfw)) ∧
    (∀ (nsfw : Bool) (resp : HttpResp NekosApiPayload)
        (proxied : Except String (HttpResp NekosApiPayload)) (proxy : Option String)
        (d : NekosApiPayload) (image : NekosApiImage),
      resp.ok = true → resp.json = some d →
      (match d with | .arr l => l | .obj items => items.getD []).head? = some image →
      strTruthy image.url = false →
      ∃ m, fetchFromNekosApi nsfw (.ok resp) proxied proxy = .error m ∧
        strContains m "Nekos" ∧ strContains m (nekosApiBaseUrl nsfw)) ∧
    -- Nekos API, direct fetch threw and the proxied fetch answered
    (∀ (nsfw : Bool) (de : String) (resp : HttpResp NekosApiPayload) (cp : String),
      resp.ok = false →
      ∃ m, fetchFromNekosApi nsfw (.error de) (.ok resp) (some cp) = .error m ∧
        strContains m "Nekos" ∧
        strContains m (cp ++ encodeURIComponent (nekosApiBaseUrl nsfw))) ∧
    (∀ (nsfw : Bool) (de : String) (resp : HttpResp NekosApiPayload) (cp : String),
      resp.ok = true → resp.json = none →
      ∃ m, fetchFromNekosApi nsfw (.error de) (.ok resp) (some cp) = .error m ∧
        strContains m "Nekos" ∧
        strContains m (cp ++ encodeURIComponent (nekosApiBaseUrl nsfw))) ∧
    (∀ (nsfw : Bool) (de : String) (resp : HttpResp NekosApiPayload) (cp : String)
        (d : NekosApiPayload),
      resp.ok = true → resp.json = some d →
      (match d with | .arr l => l | .obj items => items.getD []) = [] →
      ∃ m, fetchFromNekosApi nsfw (.error de) (.ok resp) (some cp) = .error m ∧
        strContains m "Nekos" ∧
        strContains m (cp ++ encodeURIComponent (nekosApiBaseUrl nsfw))) ∧
    (∀ (nsfw : Bool) (de : String) (resp : HttpResp NekosApiPayload) (cp : String)
        (d : NekosApiPayload) (image : NekosApiImage),
      resp.ok = true → resp.json = some d →
      (match d with | .arr l => l | .obj items => items.getD []).head? = some image →
      strTruthy image.url = false →
      ∃ m, fetchFromNekosApi nsfw (.error de) (.ok resp) (some cp) = .error m ∧
        strContains m "Nekos" ∧
        strContains m (cp ++ encodeURIComponent (nekosApiBaseUrl nsfw))) ∧
    -- pic.re performs no fetch: none of the failure modes exist
    (∀ proxy : Option String, ∃ img, fetchFromPicRe proxy = .ok img) := by
  refine ⟨?_, ?_, ?_, ?_, ?_, ?_, ?_, ?_, ?_, ?_, ?_, ?_, ?_, ?_, ?_, ?_, ?_,
    ?_, ?_, ?_, ?_, ?_, ?_, ?_, ?_, ?_, ?_, fun proxy => ⟨_, rfl⟩⟩
  -- nekos.best
  · intro resp proxy h
    have hx : fetchFromNekosBest resp proxy = .error (buildResponseError "nekos.best"
        nekosBestUrl resp.status resp.statusText resp.bodyText) := by
      simp [fetchFromNekosBest, h]
    exact ⟨_, hx, (buildResponseError_contains _ _ _ _ _).1,
      (buildResponseError_contains _ _ _ _ _).2⟩
  · intro resp proxy hok hj
    have hx : fetchFromNekosBest resp proxy = .error (buildDataError "nekos.best"
        nekosBestUrl "Failed to parse JSON response" none) := by
      simp [fetchFromNekosBest, hok, hj]
    exact ⟨_, hx, (buildDataError_contains _ _ _ _).1,
      (buildDataError_contains _ _ _ _).2⟩
  · intro resp proxy d hok hj hres
    have hx : fetchFromNekosBest resp proxy = .error (buildDataError "nekos.best"
        nekosBestUrl "No images returned from nekos.best API" (some resp.raw)) := by
      rcases hres with h | h <;> simp [fetchFromNekosBest, hok, hj, h]
    exact ⟨_, hx, (buildDataError_contains _ _ _ _).1,
      (buildDataError_contains _ _ _ _).2⟩
  -- waifu.pics
  · intro nsfw resp proxy h
    have hx : fetchFromWaifuPics nsfw resp proxy = .error (buildResponseError
        "waifu.pics" (waifuPicsUrl nsfw) resp.status resp.statusText resp.bodyText) := by
      simp [fetchFromWaifuPics, h]
    exact ⟨_, hx, (buildResponseError_contains _ _ _ _ _).1,
      (buildResponseError_contains _ _ _ _ _).2⟩
  · intro nsfw resp proxy hok hj
    have hx : fetchFromWaifuPics nsfw resp proxy = .error (buildDataError
        "waifu.pics" (waifuPicsUrl nsfw) "Failed to parse JSON response" none) := by
      simp [fetchFromWaifuPics, hok, hj]
    exact ⟨_, hx, (buildDataError_contains _ _ _ _).1,
      (buildDataError_contains _ _ _ _).2⟩
  · intro nsfw resp proxy d hok hj hfalsy
    have hx : fetchFromWaifuPics nsfw resp proxy = .error (buildDataError
        "waifu.pics" (waifuPicsUrl nsfw) "No image URL returned from waifu.pics API"
        (some resp.raw)) := by
      simp [fetchFromWaifuPics, hok, hj, hfalsy]
    exact ⟨_, hx, (buildDataError_contains _ _ _ _).1,
      (buildDataError_contains _ _ _ _).2⟩
  -- Nekosia
  · intro resp proxy h
    have hx : fetchFromNekosia resp proxy = .error (buildResponseError "Nekosia"
        nekosiaUrl resp.status resp.statusText resp.bodyText) := by
      simp [fetchFromNekosia, h]
    exact ⟨_, hx, (buildResponseError_contains _ _ _ _ _).1,
      (buildResponseError_contains _ _ _ _ _).2⟩
  · intro resp proxy hok hj
    have hx : fetchFromNekosia resp proxy = .error (buildDataError "Nekosia"
        nekosiaUrl "Failed to parse JSON response" none) := by
      simp [fetchFromNekosia, hok, hj]
    exact ⟨_, hx, (buildDataError_contains _ _ _ _).1,
      (buildDataError_contains _ _ _ _).2⟩
  · intro resp proxy d hok hj hfalsy
    have hx : fetchFromNekosia resp proxy = .error (buildDataError "Nekosia"
        nekosiaUrl "No image URL returned from Nekosia API" (some resp.raw)) := by
      simp [fetchFromNekosia, hok, hj, hfalsy]
    exact ⟨_, hx, (buildDataError_contains _ _ _ _).1,
      (buildDataError_contains _ _ _ _).2⟩
  -- waifu.im
  · intro nsfw resp proxy h
    have hx : fetchFromWaifuIm nsfw resp proxy = .error (buildResponseError
        "waifu.im" (waifuImUrl nsfw) resp.status resp.statusText resp.bodyText) := by
      simp [fetchFromWaifuIm, h]
    exact ⟨_, hx, (buildResponseError_contains _ _ _ _ _).1,
      (buildResponseError_contains _ _ _ _ _).2⟩
  · intro nsfw resp proxy hok hj
    have hx : fetchFromWaifuIm nsfw resp proxy = .error (buildDataError
        "waifu.im" (waifuImUrl nsfw) "Failed to parse JSON response" none) := by
      simp [fetchFromWaifuIm, hok, hj]
    exact ⟨_, hx, (buildDataError_contains _ _ _ _).1,
      (buildDataError_contains _ _ _ _).2⟩
  · intro nsfw resp proxy d hok hj hres
    have hx : fetchFromWaifuIm nsfw resp proxy = .error (buildDataError
        "waifu.im" (waifuImUrl nsfw) "No images returned from waifu.im API"
        (some resp.raw)) := by
      rcases hres with h | h <;> simp [fetchFromWaifuIm, hok, hj, h]
    exact ⟨_, hx, (buildDataError_contains _ _ _ _).1,
      (buildDataError_contains _ _ _ _).2⟩
  -- nekos.moe
  · intro nsfw resp proxy h
    have hx : fetchFromNekosMoe nsfw resp proxy = .error (buildResponseError
        "nekos.moe" (nekosMoeUrl nsfw) resp.status resp.statusText resp.bodyText) := by
      simp [fetchFromNekosMoe, h]
    exact ⟨_, hx, (buildResponseError_contains _ _ _ _ _).1,
      (buildResponseError_contains _ _ _ _ _).2⟩
  · intro nsfw resp proxy hok hj
    have hx : fetchFromNekosMoe nsfw resp proxy = .error (buildDataError
        "nekos.moe" (nekosMoeUrl nsfw) "Failed to parse JSON response" none) := by
      simp [fetchFromNekosMoe, hok, hj]
    exact ⟨_, hx, (buildDataError_contains _ _ _ _).1,
      (buildDataError_contains _ _ _ _).2⟩
  · intro nsfw resp proxy d hok hj hhead
    have hx : fetchFromNekosMoe nsfw resp proxy = .error (buildDataError
        "nekos.moe" (nekosMoeUrl nsfw) "No images returned from nekos.moe API"
        (some resp.raw)) := by
      simp [fetchFromNekosMoe, hok, hj, hhead]
    exact ⟨_, hx, (buildDataError_contains _ _ _ _).1,
      (buildDataError_contains _ _ _ _).2⟩
  · intro nsfw resp proxy d img hok hj hhead hid
    have hx : fetchFromNekosMoe nsfw resp proxy = .error (buildDataError
        "nekos.moe" (nekosMoeUrl nsfw) "No images returned from nekos.moe API"
        (some resp.raw)) := by
      simp [fetchFromNekosMoe, hok, hj, hhead, hid]
    exact ⟨_, hx, (buildDataError_contains _ _ _ _).1,
      (buildDataError_contains _ _ _ _).2⟩
  -- danbooru
  · intro nsfw resp proxy h
    have hx : fetchFromDanbooru nsfw resp proxy = .error (buildResponseError
        "danbooru" (danbooruUrl nsfw) resp.status resp.statusText resp.bodyText) := by
      simp [fetchFromDanbooru, h]
    exact ⟨_, hx, (buildResponseError_contains _ _ _ _ _).1,
      (buildResponseError_contains _ _ _ _ _).2⟩
  · intro nsfw resp proxy hok hj
    have hx : fetchFromDanbooru nsfw resp proxy = .error (buildDataError
        "danbooru" (danbooruUrl nsfw) "Failed to parse JSON response" none) := by
      simp [fetchFromDanbooru, hok, hj]
    exact ⟨_, hx, (buildDataError_contains _ _ _ _).1,
      (buildDataError_contains _ _ _ _).2⟩
  · intro nsfw resp proxy posts hok hj hfalsy
    have hx : fetchFromDanbooru nsfw resp proxy = .error (buildDataError
        "danbooru" (danbooruUrl nsfw) "No image URL returned from danbooru API"
        (some resp.raw)) := by
      simp [fetchFromDanbooru, hok, hj, hfalsy]
    exact ⟨_, hx, (buildDataError_contains _ _ _ _).1,
      (buildDataError_contains _ _ _ _).2⟩
  -- Nekos API, direct path
  · intro nsfw resp proxied proxy h
    have hx : fetchFromNekosApi nsfw (.ok resp) proxied proxy = .error
        (buildResponseError "Nekos" (nekosApiBaseUrl nsfw) resp.status resp.statusText
          resp.bodyText) := by
      simp [fetchFromNekosApi, h]
    exact ⟨_, hx, (buildResponseError_contains _ _ _ _ _).1,
      (buildResponseError_contains _ _ _ _ _).2⟩
  · intro nsfw resp proxied proxy hok hj
    have hx : fetchFromNekosApi nsfw (.ok resp) proxied proxy = .error
        (buildDataError "Nekos" (nekosApiBaseUrl nsfw)
          "Failed to parse JSON response" none) := by
      simp [fetchFromNekosApi, hok, hj]
    exact ⟨_, hx, (buildDataError_contains _ _ _ _).1,
      (buildDataError_contains _ _ _ _).2⟩
  · intro nsfw resp proxied proxy d hok hj hempty
    have hx : fetchFromNekosApi nsfw (.ok resp) proxied proxy = .error
        (buildDataError "Nekos" (nekosApiBaseUrl nsfw)
          "No image URL returned from Nekos API" (some resp.raw)) := by
      simp [fetchFromNekosApi, hok, hj, hempty]
    exact ⟨_, hx, (buildDataError_contains _ _ _ _).1,
      (buildDataError_contains _ _ _ _).2⟩
  · intro nsfw resp proxied proxy d image hok hj hhead hurl
    have hx : fetchFromNekosApi nsfw (.ok resp) proxied proxy = .error
        (buildDataError "Nekos" (nekosApiBaseUrl nsfw)
          "No image URL returned from Nekos API" (some resp.raw)) := by
      simp [fetchFromNekosApi, hok, hj, hhead, hurl]
    exact ⟨_, hx, (buildDataError_contains _ _ _ _).1,
      (buildDataError_contains _ _ _ _).2⟩
  -- Nekos API, proxied path
  · intro nsfw de resp cp h
    have hx : fetchFromNekosApi nsfw (.error de) (.ok resp) (some cp) = .error
        (buildResponseError "Nekos" (cp ++ encodeURIComponent (nekosApiBaseUrl nsfw))
          resp.status resp.statusText resp.bodyText) := by
      simp [fetchFromNekosApi, h]
    exact ⟨_, hx, (buildResponseError_contains _ _ _ _ _).1,
      (buildResponseError_contains _ _ _ _ _).2⟩
  · intro nsfw de resp cp hok hj
    have hx : fetchFromNekosApi nsfw (.error de) (.ok resp) (some cp) = .error
        (buildDataError "Nekos" (cp ++ encodeURIComponent (nekosApiBaseUrl nsfw))
          "Failed to parse JSON response" none) := by
      simp [fetchFromNekosApi, hok, hj]
    exact ⟨_, hx, (buildDataError_contains _ _ _ _).1,
      (buildDataError_contains _ _ _ _).2⟩
  · intro nsfw de resp cp d hok hj hempty
    have hx : fetchFromNekosApi nsfw (.error de) (.ok resp) (some cp) = .error
        (buildDataError "Nekos" (cp ++ encodeURIComponent (nekosApiBaseUrl nsfw))
          "No image URL returned from Nekos API" (some resp.raw)) := by
      simp [fetchFromNekosApi, hok, hj, hempty]
    exact ⟨_, hx, (buildDataError_contains _ _ _ _).1,
      (buildDataError_contains _ _ _ _).2⟩
  · intro nsfw de resp cp d image hok hj hhead hurl
    have hx : fetchFromNekosApi nsfw (.error de) (.ok resp) (some cp) = .error
        (buildDataError "Nekos" (cp ++ encodeURIComponent (nekosApiBaseUrl nsfw))
          "No image URL returned from Nekos API" (some resp.raw)) := by
      simp [fetchFromNekosApi, hok, hj, hhead, hurl]
    exact ⟨_, hx, (buildDataError_contains _ _ _ _).1,
      (buildDataError_contains _ _ _ _).2⟩

/-- C6 counterexample: a payload missing the expected image field is
*not* always rejected — `fetchFromNekosBest` and `fetchFromWaifuIm`
check only that the `results`/`images` array is present and non-empty,
so a 200 response whose first item lacks the `url` field resolves
successfully (with a falsy url in the record) instead of rejecting with
a provider-name/request-URL error. -/
theorem claim6_counterexample_missing_field_resolves :
    (∃ img, fetchFromNekosBest respMissingUrl none = .ok img ∧ img.url = "") ∧
    (∃ img, fetchFromWaifuIm false respWaifuImMissingUrl none = .ok img ∧
      img.url = "") :=
  ⟨⟨_, rfl, rfl⟩, ⟨_, rfl, rfl⟩⟩

/-- C6 witness: a concrete 500 from nekos.best yields an error message
containing the provider name and the request URL. -/
theorem claim6_adapter_errors_witness :
    ∃ m, fetchFromNekosBest dummyHttp none = .error m ∧
      strContains m "nekos.best" ∧ strContains m nekosBestUrl :=
  claim6_adapter_errors_carry_name_and_url.1 dummyHttp none rfl

end MoeMoe
